import Mathlib

/-!
Verification of the chirp CHIP-8 core: the instruction codec
(src/src/opcode.rs and src/src/instructions.rs), the register file
(src/src/register.rs) and the memory store (src/src/memory.rs), embedded
shallowly over Nat. Machine integers are modelled as Nat with explicit
truncation (mod 2 ^ width) exactly where the bitvec store calls truncate;
Rust panics are modelled as Option.none; Result is modelled as Except.
-/

namespace Chirp

/-- The Instruction enum from src/src/instructions.rs lines 64-225: one
variant per supported CHIP-8 / SCHIP operation, payloads are register
indices, immediates and addresses. The variant SkipNotEqualImediate keeps
the spelling used at its declaration site (line 112). -/
inductive Instruction where
  | ScrollDown (k : Nat)
  | ScrollRight
  | ScrollLeft
  | Exit
  | LowRes
  | HighRes
  | ClearScreen
  | Return
  | Jump (addr : Nat)
  | Call (addr : Nat)
  | SkipEqualImmediate (vx byte : Nat)
  | SkipNotEqualImediate (vx byte : Nat)
  | SkipEqual (vx vy : Nat)
  | LoadImmediate (vx byte : Nat)
  | AddImmediate (vx byte : Nat)
  | Load (vx vy : Nat)
  | Or (vx vy : Nat)
  | And (vx vy : Nat)
  | Xor (vx vy : Nat)
  | Add (vx vy : Nat)
  | Sub (vx vy : Nat)
  | ShiftRight (vx vy : Nat)
  | SubNumeric (vx vy : Nat)
  | ShiftLeft (vx vy : Nat)
  | SkipNotEqual (vx vy : Nat)
  | LoadI (addr : Nat)
  | JumpImmediate (addr : Nat)
  | Random (vx addr : Nat)
  | Draw (vx vy nibble : Nat)
  | SkipOnKey (vx : Nat)
  | SkipNotOnKey (vx : Nat)
  | LoadDTIntoV (vx : Nat)
  | LoadKey (vx : Nat)
  | LoadVIntoDT (vx : Nat)
  | LoadVIntoST (vx : Nat)
  | AddI (vx : Nat)
  | LoadSpriteIntoI (vx : Nat)
  | LoadBCDIntoI (vx : Nat)
  | LoadVIntoMem (vx : Nat)
  | LoadMemIntoV (vx : Nat)
deriving DecidableEq, Repr

/-! Field constructors of src/src/opcode.rs (lines 43-89). Each models a
sequence of bitvec store calls into disjoint Lsb0 bit ranges of a u16 that
starts at zero; store truncates the stored value to the width of the
range, hence the explicit mod factors. The resulting u16 is the sum of
the fields shifted to their bit offsets. -/

/-- opcode.rs oooo: the whole 16-bit word is the literal. -/
def OpCode.oooo (k : Nat) : Nat := k % 65536

/-- opcode.rs oook: bits 4-15 hold ooo, bits 0-3 hold k. -/
def OpCode.oook (ooo k : Nat) : Nat := ooo % 4096 * 16 + k % 16

/-- opcode.rs oxoo: bits 12-15 hold o, bits 8-11 hold x, bits 0-7 hold oo. -/
def OpCode.oxoo (o x oo : Nat) : Nat := o % 16 * 4096 + x % 16 * 256 + oo % 256

/-- opcode.rs oxyo: nibbles o, x, y, and low nibble ol. -/
def OpCode.oxyo (om x y ol : Nat) : Nat :=
  om % 16 * 4096 + x % 16 * 256 + y % 16 * 16 + ol % 16

/-- opcode.rs okkk: top nibble o, low 12 bits kkk. -/
def OpCode.okkk (o kkk : Nat) : Nat := o % 16 * 4096 + kkk % 4096

/-- opcode.rs oxkk: top nibble o, register nibble x, low byte kk. -/
def OpCode.oxkk (o x kk : Nat) : Nat := o % 16 * 4096 + x % 16 * 256 + kk % 256

/-- opcode.rs oxyk: nibbles o, x, y, k. -/
def OpCode.oxyk (o x y k : Nat) : Nat :=
  o % 16 * 4096 + x % 16 * 256 + y % 16 * 16 + k % 16

/-- The encoder of src/src/opcode.rs lines 92-138: the From Instruction
impl for OpCode. The match arm for the 4xkk variant appears there under
the spelling SkipNotEqualImmediate. -/
def OpCode.fromInstruction : Instruction → Nat
  | .ScrollDown k => OpCode.oook 0x00C k
  | .ScrollRight => OpCode.oooo 0x00FB
  | .ScrollLeft => OpCode.oooo 0x00FC
  | .Exit => OpCode.oooo 0x00FD
  | .LowRes => OpCode.oooo 0x00FE
  | .HighRes => OpCode.oooo 0x00FF
  | .ClearScreen => OpCode.oooo 0x00E0
  | .Return => OpCode.oooo 0x00EE
  | .Jump addr => OpCode.okkk 0x1 addr
  | .Call addr => OpCode.okkk 0x2 addr
  | .SkipEqualImmediate vx byte => OpCode.oxkk 0x3 vx byte
  | .SkipNotEqualImediate vx byte => OpCode.oxkk 0x4 vx byte
  | .SkipEqual vx vy => OpCode.oxyo 0x5 vx vy 0x0
  | .LoadImmediate vx byte => OpCode.oxkk 0x6 vx byte
  | .AddImmediate vx byte => OpCode.oxkk 0x7 vx byte
  | .Load vx vy => OpCode.oxyo 0x8 vx vy 0x0
  | .Or vx vy => OpCode.oxyo 0x8 vx vy 0x1
  | .And vx vy => OpCode.oxyo 0x8 vx vy 0x2
  | .Xor vx vy => OpCode.oxyo 0x8 vx vy 0x3
  | .Add vx vy => OpCode.oxyo 0x8 vx vy 0x4
  | .Sub vx vy => OpCode.oxyo 0x8 vx vy 0x5
  | .ShiftRight vx vy => OpCode.oxyo 0x8 vx vy 0x6
  | .SubNumeric vx vy => OpCode.oxyo 0x8 vx vy 0x7
  | .ShiftLeft vx vy => OpCode.oxyo 0x8 vx vy 0xE
  | .SkipNotEqual vx vy => OpCode.oxyo 0x9 vx vy 0x0
  | .LoadI addr => OpCode.okkk 0xA addr
  | .JumpImmediate addr => OpCode.okkk 0xB addr
  | .Random vx addr => OpCode.oxkk 0xC vx addr
  | .Draw vx vy nibble => OpCode.oxyk 0xD vx vy nibble
  | .SkipOnKey vx => OpCode.oxoo 0xE vx 0x9E
  | .SkipNotOnKey vx => OpCode.oxoo 0xE vx 0xA1
  | .LoadDTIntoV vx => OpCode.oxoo 0xF vx 0x07
  | .LoadKey vx => OpCode.oxoo 0xF vx 0x0A
  | .LoadVIntoDT vx => OpCode.oxoo 0xF vx 0x15
  | .LoadVIntoST vx => OpCode.oxoo 0xF vx 0x18
  | .AddI vx => OpCode.oxoo 0xF vx 0x1E
  | .LoadSpriteIntoI vx => OpCode.oxoo 0xF vx 0x29
  | .LoadBCDIntoI vx => OpCode.oxoo 0xF vx 0x33
  | .LoadVIntoMem vx => OpCode.oxoo 0xF vx 0x55
  | .LoadMemIntoV vx => OpCode.oxoo 0xF vx 0x65

/-! The duplicate codec of src/src/instructions.rs (lines 249-305): its
helper constructors are byte-for-byte those of opcode.rs except oxoo,
which at lines 269-275 stores oo into bits 8-15, x into bits 4-7 and o
into bits 0-3 (a reversed layout), and its From Instruction impl (lines
307-353) maps Return to oooo 0x00E0 at line 318. -/

/-- instructions.rs oooo (identical to the opcode.rs version). -/
def InstrOpCode.oooo (k : Nat) : Nat := k % 65536

/-- instructions.rs oook (identical to the opcode.rs version). -/
def InstrOpCode.oook (ooo k : Nat) : Nat := ooo % 4096 * 16 + k % 16

/-- instructions.rs oxoo, lines 269-275: bits 8-15 hold oo, bits 4-7 hold
x, bits 0-3 hold o. -/
def InstrOpCode.oxoo (o x oo : Nat) : Nat := oo % 256 * 256 + x % 16 * 16 + o % 16

/-- instructions.rs oxyo (identical to the opcode.rs version). -/
def InstrOpCode.oxyo (om x y ol : Nat) : Nat :=
  om % 16 * 4096 + x % 16 * 256 + y % 16 * 16 + ol % 16

/-- instructions.rs okkk (identical to the opcode.rs version). -/
def InstrOpCode.okkk (o kkk : Nat) : Nat := o % 16 * 4096 + kkk % 4096

/-- instructions.rs oxkk (identical to the opcode.rs version). -/
def InstrOpCode.oxkk (o x kk : Nat) : Nat := o % 16 * 4096 + x % 16 * 256 + kk % 256

/-- instructions.rs oxyk (identical to the opcode.rs version). -/
def InstrOpCode.oxyk (o x y k : Nat) : Nat :=
  o % 16 * 4096 + x % 16 * 256 + y % 16 * 16 + k % 16

/-- The encoder copy of src/src/instructions.rs lines 307-353. -/
def InstrOpCode.fromInstruction : Instruction → Nat
  | .ScrollDown k => InstrOpCode.oook 0x00C k
  | .ScrollRight => InstrOpCode.oooo 0x00FB
  | .ScrollLeft => InstrOpCode.oooo 0x00FC
  | .Exit => InstrOpCode.oooo 0x00FD
  | .LowRes => InstrOpCode.oooo 0x00FE
  | .HighRes => InstrOpCode.oooo 0x00FF
  | .ClearScreen => InstrOpCode.oooo 0x00E0
  | .Return => InstrOpCode.oooo 0x00E0
  | .Jump addr => InstrOpCode.okkk 0x1 addr
  | .Call addr => InstrOpCode.okkk 0x2 addr
  | .SkipEqualImmediate vx byte => InstrOpCode.oxkk 0x3 vx byte
  | .SkipNotEqualImediate vx byte => InstrOpCode.oxkk 0x4 vx byte
  | .SkipEqual vx vy => InstrOpCode.oxyo 0x5 vx vy 0x0
  | .LoadImmediate vx byte => InstrOpCode.oxkk 0x6 vx byte
  | .AddImmediate vx byte => InstrOpCode.oxkk 0x7 vx byte
  | .Load vx vy => InstrOpCode.oxyo 0x8 vx vy 0x0
  | .Or vx vy => InstrOpCode.oxyo 0x8 vx vy 0x1
  | .And vx vy => InstrOpCode.oxyo 0x8 vx vy 0x2
  | .Xor vx vy => InstrOpCode.oxyo 0x8 vx vy 0x3
  | .Add vx vy => InstrOpCode.oxyo 0x8 vx vy 0x4
  | .Sub vx vy => InstrOpCode.oxyo 0x8 vx vy 0x5
  | .ShiftRight vx vy => InstrOpCode.oxyo 0x8 vx vy 0x6
  | .SubNumeric vx vy => InstrOpCode.oxyo 0x8 vx vy 0x7
  | .ShiftLeft vx vy => InstrOpCode.oxyo 0x8 vx vy 0xE
  | .SkipNotEqual vx vy => InstrOpCode.oxyo 0x9 vx vy 0x0
  | .LoadI addr => InstrOpCode.okkk 0xA addr
  | .JumpImmediate addr => InstrOpCode.okkk 0xB addr
  | .Random vx addr => InstrOpCode.oxkk 0xC vx addr
  | .Draw vx vy nibble => InstrOpCode.oxyk 0xD vx vy nibble
  | .SkipOnKey vx => InstrOpCode.oxoo 0xE vx 0x9E
  | .SkipNotOnKey vx => InstrOpCode.oxoo 0xE vx 0xA1
  | .LoadDTIntoV vx => InstrOpCode.oxoo 0xF vx 0x07
  | .LoadKey vx => InstrOpCode.oxoo 0xF vx 0x0A
  | .LoadVIntoDT vx => InstrOpCode.oxoo 0xF vx 0x15
  | .LoadVIntoST vx => InstrOpCode.oxoo 0xF vx 0x18
  | .AddI vx => InstrOpCode.oxoo 0xF vx 0x1E
  | .LoadSpriteIntoI vx => InstrOpCode.oxoo 0xF vx 0x29
  | .LoadBCDIntoI vx => InstrOpCode.oxoo 0xF vx 0x33
  | .LoadVIntoMem vx => InstrOpCode.oxoo 0xF vx 0x55
  | .LoadMemIntoV vx => InstrOpCode.oxoo 0xF vx 0x65

/-- True exactly on the variants whose opcode.rs encoding goes through
the oxoo constructor: the key-skip pair and the Fxkk family. -/
def usesOxoo : Instruction → Bool
  | .SkipOnKey _ => true
  | .SkipNotOnKey _ => true
  | .LoadDTIntoV _ => true
  | .LoadKey _ => true
  | .LoadVIntoDT _ => true
  | .LoadVIntoST _ => true
  | .AddI _ => true
  | .LoadSpriteIntoI _ => true
  | .LoadBCDIntoI _ => true
  | .LoadVIntoMem _ => true
  | .LoadMemIntoV _ => true
  | _ => false

/-- Modelled from the spec: the Decoder of spec section 4.1 together with
the 47-entry opcode table reproduced in the doc comment of
src/src/instructions.rs; the repository sources contain no decode
implementation, only the encoder. The top nibble of the 16-bit word is
inspected first, then the sub-fields narrow the family (the 0x0 family
matches the exact words 00Ck, 00E0, 00EE, 00FB-00FF of the table; the
0x8 family branches on the low nibble; the 0xE and 0xF families branch
on the low byte). An unrecognized bit pattern yields Except.error
carrying the offending word, never a default instruction. -/
def decode (w : Nat) : Except Nat Instruction :=
  if w / 4096 = 0x0 then
    if 0xC0 ≤ w ∧ w ≤ 0xCF then .ok (.ScrollDown (w % 16))
    else if w = 0xFB then .ok .ScrollRight
    else if w = 0xFC then .ok .ScrollLeft
    else if w = 0xFD then .ok .Exit
    else if w = 0xFE then .ok .LowRes
    else if w = 0xFF then .ok .HighRes
    else if w = 0xE0 then .ok .ClearScreen
    else if w = 0xEE then .ok .Return
    else .error w
  else if w / 4096 = 0x1 then .ok (.Jump (w % 4096))
  else if w / 4096 = 0x2 then .ok (.Call (w % 4096))
  else if w / 4096 = 0x3 then .ok (.SkipEqualImmediate (w / 256 % 16) (w % 256))
  else if w / 4096 = 0x4 then .ok (.SkipNotEqualImediate (w / 256 % 16) (w % 256))
  else if w / 4096 = 0x5 then
    if w % 16 = 0x0 then .ok (.SkipEqual (w / 256 % 16) (w / 16 % 16)) else .error w
  else if w / 4096 = 0x6 then .ok (.LoadImmediate (w / 256 % 16) (w % 256))
  else if w / 4096 = 0x7 then .ok (.AddImmediate (w / 256 % 16) (w % 256))
  else if w / 4096 = 0x8 then
    if w % 16 = 0x0 then .ok (.Load (w / 256 % 16) (w / 16 % 16))
    else if w % 16 = 0x1 then .ok (.Or (w / 256 % 16) (w / 16 % 16))
    else if w % 16 = 0x2 then .ok (.And (w / 256 % 16) (w / 16 % 16))
    else if w % 16 = 0x3 then .ok (.Xor (w / 256 % 16) (w / 16 % 16))
    else if w % 16 = 0x4 then .ok (.Add (w / 256 % 16) (w / 16 % 16))
    else if w % 16 = 0x5 then .ok (.Sub (w / 256 % 16) (w / 16 % 16))
    else if w % 16 = 0x6 then .ok (.ShiftRight (w / 256 % 16) (w / 16 % 16))
    else if w % 16 = 0x7 then .ok (.SubNumeric (w / 256 % 16) (w / 16 % 16))
    else if w % 16 = 0xE then .ok (.ShiftLeft (w / 256 % 16) (w / 16 % 16))
    else .error w
  else if w / 4096 = 0x9 then
    if w % 16 = 0x0 then .ok (.SkipNotEqual (w / 256 % 16) (w / 16 % 16)) else .error w
  else if w / 4096 = 0xA then .ok (.LoadI (w % 4096))
  else if w / 4096 = 0xB then .ok (.JumpImmediate (w % 4096))
  else if w / 4096 = 0xC then .ok (.Random (w / 256 % 16) (w % 256))
  else if w / 4096 = 0xD then .ok (.Draw (w / 256 % 16) (w / 16 % 16) (w % 16))
  else if w / 4096 = 0xE then
    if w % 256 = 0x9E then .ok (.SkipOnKey (w / 256 % 16))
    else if w % 256 = 0xA1 then .ok (.SkipNotOnKey (w / 256 % 16))
    else .error w
  else if w / 4096 = 0xF then
    if w % 256 = 0x07 then .ok (.LoadDTIntoV (w / 256 % 16))
    else if w % 256 = 0x0A then .ok (.LoadKey (w / 256 % 16))
    else if w % 256 = 0x15 then .ok (.LoadVIntoDT (w / 256 % 16))
    else if w % 256 = 0x18 then .ok (.LoadVIntoST (w / 256 % 16))
    else if w % 256 = 0x1E then .ok (.AddI (w / 256 % 16))
    else if w % 256 = 0x29 then .ok (.LoadSpriteIntoI (w / 256 % 16))
    else if w % 256 = 0x33 then .ok (.LoadBCDIntoI (w / 256 % 16))
    else if w % 256 = 0x55 then .ok (.LoadVIntoMem (w / 256 % 16))
    else if w % 256 = 0x65 then .ok (.LoadMemIntoV (w / 256 % 16))
    else .error w
  else .error w

/-- Payload ranges of the data model (spec section 3): register indices
and 4-bit literals are 0-15, bytes are 0-255, addresses are 0-4095. In
the Rust source these are the ranges the bitvec store calls preserve
without truncation. -/
def Instruction.wf : Instruction → Bool
  | .ScrollDown k => k < 16
  | .ScrollRight | .ScrollLeft | .Exit | .LowRes | .HighRes
  | .ClearScreen | .Return => true
  | .Jump a | .Call a | .LoadI a | .JumpImmediate a => a < 4096
  | .SkipEqualImmediate x kk | .SkipNotEqualImediate x kk
  | .LoadImmediate x kk | .AddImmediate x kk | .Random x kk =>
      x < 16 && kk < 256
  | .SkipEqual x y | .Load x y | .Or x y | .And x y | .Xor x y
  | .Add x y | .Sub x y | .ShiftRight x y | .SubNumeric x y
  | .ShiftLeft x y | .SkipNotEqual x y => x < 16 && y < 16
  | .Draw x y n => x < 16 && y < 16 && n < 16
  | .SkipOnKey x | .SkipNotOnKey x | .LoadDTIntoV x | .LoadKey x
  | .LoadVIntoDT x | .LoadVIntoST x | .AddI x | .LoadSpriteIntoI x
  | .LoadBCDIntoI x | .LoadVIntoMem x | .LoadMemIntoV x => x < 16

/-- The MemoryError enum of src/src/memory.rs lines 5-13. The io error
payloads of the file variants are not observable in the embedding. -/
inductive MemoryError where
  | LoadFile
  | OpenFile
  | OutOfBoundsAccess (idx : Nat)
deriving DecidableEq, Repr

/-- The Memory struct of src/src/memory.rs line 27: a byte vector. -/
structure Memory where
  memory : List Nat
deriving DecidableEq, Repr

/-- Memory.MEMORY_SIZE, src/src/memory.rs line 107. -/
def Memory.MEMORY_SIZE : Nat := 0x1000

/-- Memory.MEMORY_START, src/src/memory.rs line 108. -/
def Memory.MEMORY_START : Nat := 0x200

/-- Memory.new, src/src/memory.rs lines 110-114: MEMORY_SIZE zero bytes. -/
def Memory.new : Memory := ⟨List.replicate Memory.MEMORY_SIZE 0⟩

/-- Memory.check_idx, src/src/memory.rs lines 116-123: the index passes
when it lies in the half-open range MEMORY_START..MEMORY_SIZE, otherwise
the result is the OutOfBoundsAccess error carrying the index. -/
def Memory.check_idx (idx : Nat) : Except MemoryError Nat :=
  if Memory.MEMORY_START ≤ idx ∧ idx < Memory.MEMORY_SIZE then .ok idx
  else .error (.OutOfBoundsAccess idx)

/-- Memory.get, src/src/memory.rs lines 125-129: check_idx then an
unchecked read, modelled with List.getD. -/
def Memory.get (m : Memory) (idx : Nat) : Except MemoryError Nat :=
  match Memory.check_idx idx with
  | .ok i => .ok (m.memory.getD i 0)
  | .error e => .error e

/-- Memory.get_mut, src/src/memory.rs lines 131-135: check_idx then an
unchecked mutable reference. A mutable borrow plus store is modelled as
the written-back memory, with List.set at the checked index. -/
def Memory.get_mut (m : Memory) (idx val : Nat) : Except MemoryError Memory :=
  match Memory.check_idx idx with
  | .ok i => .ok ⟨m.memory.set i val⟩
  | .error e => .error e

/-- Helper for the copy_from_slice call of the io Write impl: writes src
into dst starting at position start, leaving the rest unchanged. -/
def listCopyAt (dst : List Nat) (start : Nat) (src : List Nat) : List Nat :=
  (List.range dst.length).map fun j =>
    if start ≤ j ∧ j < start + src.length then src.getD (j - start) 0
    else dst.getD j 0

/-- The io Write impl for Memory, src/src/memory.rs lines 45-58. The
data length is clamped to MEMORY_SIZE - MEMORY_START, then the source
slices self.memory with the range MEMORY_START..data_length (not
MEMORY_START..MEMORY_START + data_length) and calls copy_from_slice with
buf. Slicing panics unless MEMORY_START ≤ data_length ≤ memory.len(), and
copy_from_slice panics unless the slice length data_length - MEMORY_START
equals buf.len(); a panic is modelled as none. On success the result is
the written memory and the returned byte count Ok(data_length). -/
def Memory.write (m : Memory) (buf : List Nat) : Option (Memory × Nat) :=
  let buf_len := buf.length
  let writeable_size := Memory.MEMORY_SIZE - Memory.MEMORY_START
  let data_length := if buf_len < writeable_size then buf_len else writeable_size
  if Memory.MEMORY_START ≤ data_length ∧ data_length ≤ m.memory.length
      ∧ data_length - Memory.MEMORY_START = buf_len then
    some (⟨listCopyAt m.memory Memory.MEMORY_START buf⟩, data_length)
  else none

/-- The From impl for byte slices, src/src/memory.rs lines 66-72: a
default Memory written with the buffer; a panic inside write (modelled
as none) propagates. -/
def Memory.fromBytes (buf : List Nat) : Option Memory :=
  (Memory.new.write buf).map Prod.fst

/-- The Register struct of src/src/register.rs lines 3-39: the general
register array v is declared [u8; 0xF], the call stack is declared
[u16; 0xF]; both therefore hold fifteen entries. -/
structure Register where
  v : List Nat
  i : Nat
  dt : Nat
  st : Nat
  pc : Nat
  sp : Nat
  stack : List Nat
deriving DecidableEq, Repr

/-- The derived Default for Register: zeroed fields, arrays of length
0xF = 15 filled with zeros. -/
def Register.default : Register :=
  { v := List.replicate 0xF 0
    i := 0
    dt := 0
    st := 0
    pc := 0
    sp := 0
    stack := List.replicate 0xF 0 }

/-- Modelled from the spec: the ExecutionEngine semantics of the 8xy4
Add instruction (spec section 4.2 and the instruction table in the doc
comment of src/src/instructions.rs, Set Vx = Vx + Vy with VF = carry);
the repository sources contain no execution engine. The destination
register receives the wrapped sum and the flag register receives the
carry bit. Per the doc comment of src/src/register.rs line 10, the flag
register VF of this register file is v at index 0xE. -/
def Register.execAdd (rf : Register) (x y : Nat) : Register :=
  let a := rf.v.getD x 0
  let b := rf.v.getD y 0
  let sum := a + b
  { rf with v := (rf.v.set x (sum % 256)).set 0xE (if 255 < sum then 1 else 0) }

end Chirp

namespace Chirp

/-- C2: the opcode.rs encoder is byte-exact on the eight listed cases:
ScrollDown 0xA gives 0x00CA, ScrollRight gives 0x00FB, ClearScreen gives
0x00E0, Return gives 0x00EE, Jump 0xABC gives 0x1ABC, Call 0xABC gives
0x2ABC, Draw 0xA 0xB 0xC gives 0xDABC, LoadMemIntoV 0xA gives 0xFA65. -/
theorem c2_literal_encodings :
    OpCode.fromInstruction (.ScrollDown 0xA) = 0x00CA ∧
    OpCode.fromInstruction .ScrollRight = 0x00FB ∧
    OpCode.fromInstruction .ClearScreen = 0x00E0 ∧
    OpCode.fromInstruction .Return = 0x00EE ∧
    OpCode.fromInstruction (.Jump 0xABC) = 0x1ABC ∧
    OpCode.fromInstruction (.Call 0xABC) = 0x2ABC ∧
    OpCode.fromInstruction (.Draw 0xA 0xB 0xC) = 0xDABC ∧
    OpCode.fromInstruction (.LoadMemIntoV 0xA) = 0xFA65 := by
  decide

/-- C9 counterexample: the two encoders disagree. On Return the opcode.rs
encoder yields 0x00EE while the instructions.rs copy yields 0x00E0, and on
the oxoo-family instruction SkipOnKey 0xA they yield 0xEA9E versus 0x9EAE,
refuting the claim that they produce the same opcode for every
instruction and in particular agree on Return and the oxoo family. -/
theorem c9_encoders_disagree :
    OpCode.fromInstruction .Return = 0x00EE ∧
    InstrOpCode.fromInstruction .Return = 0x00E0 ∧
    OpCode.fromInstruction (.SkipOnKey 0xA) = 0xEA9E ∧
    InstrOpCode.fromInstruction (.SkipOnKey 0xA) = 0x9EAE ∧
    OpCode.fromInstruction .Return ≠ InstrOpCode.fromInstruction .Return ∧
    OpCode.fromInstruction (.SkipOnKey 0xA) ≠
      InstrOpCode.fromInstruction (.SkipOnKey 0xA) := by
  decide

/-- C9 amended: outside the oxoo family and away from Return, the two
encoders agree on every instruction, for all payload values. -/
theorem c9_encoders_agree_outside_oxoo (i : Instruction)
    (hfam : usesOxoo i = false) (hret : i ≠ .Return) :
    OpCode.fromInstruction i = InstrOpCode.fromInstruction i := by
  cases i <;> first | rfl | simp_all [usesOxoo]

/-- C9 witness: the amended agreement instantiated at Jump 0x123. -/
theorem c9_encoders_agree_outside_oxoo_witness :
    OpCode.fromInstruction (.Jump 0x123) = InstrOpCode.fromInstruction (.Jump 0x123) :=
  c9_encoders_agree_outside_oxoo (.Jump 0x123) (by decide) (by decide)

/-! Evaluation lemmas for decode, one per parametrized instruction
family: each fixes the nibble or byte fields of the word and reads off
the decoded instruction. -/

theorem decode_at_scrolldown (w k : Nat) (hlo : 0xC0 ≤ w) (hhi : w ≤ 0xCF)
    (hn : w % 16 = k) : decode w = .ok (.ScrollDown k) := by
  have h1 : w / 4096 = 0 := by omega
  simp [decode, h1, hn, hlo, hhi]

theorem decode_at_jump (w a : Nat) (h1 : w / 4096 = 1) (ha : w % 4096 = a) :
    decode w = .ok (.Jump a) := by
  simp [decode, h1, ha]

theorem decode_at_call (w a : Nat) (h1 : w / 4096 = 2) (ha : w % 4096 = a) :
    decode w = .ok (.Call a) := by
  simp [decode, h1, ha]

theorem decode_at_loadi (w a : Nat) (h1 : w / 4096 = 10) (ha : w % 4096 = a) :
    decode w = .ok (.LoadI a) := by
  simp [decode, h1, ha]

theorem decode_at_jumpimmediate (w a : Nat) (h1 : w / 4096 = 11) (ha : w % 4096 = a) :
    decode w = .ok (.JumpImmediate a) := by
  simp [decode, h1, ha]

theorem decode_at_skipequalimmediate (w x kk : Nat) (h1 : w / 4096 = 3)
    (hx : w / 256 % 16 = x) (hk : w % 256 = kk) :
    decode w = .ok (.SkipEqualImmediate x kk) := by
  simp [decode, h1, hx, hk]

theorem decode_at_skipnotequalimediate (w x kk : Nat) (h1 : w / 4096 = 4)
    (hx : w / 256 % 16 = x) (hk : w % 256 = kk) :
    decode w = .ok (.SkipNotEqualImediate x kk) := by
  simp [decode, h1, hx, hk]

theorem decode_at_loadimmediate (w x kk : Nat) (h1 : w / 4096 = 6)
    (hx : w / 256 % 16 = x) (hk : w % 256 = kk) :
    decode w = .ok (.LoadImmediate x kk) := by
  simp [decode, h1, hx, hk]

theorem decode_at_addimmediate (w x kk : Nat) (h1 : w / 4096 = 7)
    (hx : w / 256 % 16 = x) (hk : w % 256 = kk) :
    decode w = .ok (.AddImmediate x kk) := by
  simp [decode, h1, hx, hk]

theorem decode_at_random (w x kk : Nat) (h1 : w / 4096 = 12)
    (hx : w / 256 % 16 = x) (hk : w % 256 = kk) :
    decode w = .ok (.Random x kk) := by
  simp [decode, h1, hx, hk]

theorem decode_at_skipequal (w x y : Nat) (h1 : w / 4096 = 5)
    (hx : w / 256 % 16 = x) (hy : w / 16 % 16 = y) (hn : w % 16 = 0) :
    decode w = .ok (.SkipEqual x y) := by
  simp [decode, h1, hx, hy, hn]

theorem decode_at_load (w x y : Nat) (h1 : w / 4096 = 8)
    (hx : w / 256 % 16 = x) (hy : w / 16 % 16 = y) (hn : w % 16 = 0) :
    decode w = .ok (.Load x y) := by
  simp [decode, h1, hx, hy, hn]

theorem decode_at_or (w x y : Nat) (h1 : w / 4096 = 8)
    (hx : w / 256 % 16 = x) (hy : w / 16 % 16 = y) (hn : w % 16 = 1) :
    decode w = .ok (.Or x y) := by
  simp [decode, h1, hx, hy, hn]

theorem decode_at_and (w x y : Nat) (h1 : w / 4096 = 8)
    (hx : w / 256 % 16 = x) (hy : w / 16 % 16 = y) (hn : w % 16 = 2) :
    decode w = .ok (.And x y) := by
  simp [decode, h1, hx, hy, hn]

theorem decode_at_xor (w x y : Nat) (h1 : w / 4096 = 8)
    (hx : w / 256 % 16 = x) (hy : w / 16 % 16 = y) (hn : w % 16 = 3) :
    decode w = .ok (.Xor x y) := by
  simp [decode, h1, hx, hy, hn]

theorem decode_at_add (w x y : Nat) (h1 : w / 4096 = 8)
    (hx : w / 256 % 16 = x) (hy : w / 16 % 16 = y) (hn : w % 16 = 4) :
    decode w = .ok (.Add x y) := by
  simp [decode, h1, hx, hy, hn]

theorem decode_at_sub (w x y : Nat) (h1 : w / 4096 = 8)
    (hx : w / 256 % 16 = x) (hy : w / 16 % 16 = y) (hn : w % 16 = 5) :
    decode w = .ok (.Sub x y) := by
  simp [decode, h1, hx, hy, hn]

theorem decode_at_shiftright (w x y : Nat) (h1 : w / 4096 = 8)
    (hx : w / 256 % 16 = x) (hy : w / 16 % 16 = y) (hn : w % 16 = 6) :
    decode w = .ok (.ShiftRight x y) := by
  simp [decode, h1, hx, hy, hn]

theorem decode_at_subnumeric (w x y : Nat) (h1 : w / 4096 = 8)
    (hx : w / 256 % 16 = x) (hy : w / 16 % 16 = y) (hn : w % 16 = 7) :
    decode w = .ok (.SubNumeric x y) := by
  simp [decode, h1, hx, hy, hn]

theorem decode_at_shiftleft (w x y : Nat) (h1 : w / 4096 = 8)
    (hx : w / 256 % 16 = x) (hy : w / 16 % 16 = y) (hn : w % 16 = 14) :
    decode w = .ok (.ShiftLeft x y) := by
  simp [decode, h1, hx, hy, hn]

theorem decode_at_skipnotequal (w x y : Nat) (h1 : w / 4096 = 9)
    (hx : w / 256 % 16 = x) (hy : w / 16 % 16 = y) (hn : w % 16 = 0) :
    decode w = .ok (.SkipNotEqual x y) := by
  simp [decode, h1, hx, hy, hn]

theorem decode_at_draw (w x y n : Nat) (h1 : w / 4096 = 13)
    (hx : w / 256 % 16 = x) (hy : w / 16 % 16 = y) (hn : w % 16 = n) :
    decode w = .ok (.Draw x y n) := by
  simp [decode, h1, hx, hy, hn]

theorem decode_at_skiponkey (w x : Nat) (h1 : w / 4096 = 14)
    (hx : w / 256 % 16 = x) (hk : w % 256 = 0x9E) :
    decode w = .ok (.SkipOnKey x) := by
  simp [decode, h1, hx, hk]

theorem decode_at_skipnotonkey (w x : Nat) (h1 : w / 4096 = 14)
    (hx : w / 256 % 16 = x) (hk : w % 256 = 0xA1) :
    decode w = .ok (.SkipNotOnKey x) := by
  simp [decode, h1, hx, hk]

theorem decode_at_loaddtintov (w x : Nat) (h1 : w / 4096 = 15)
    (hx : w / 256 % 16 = x) (hk : w % 256 = 0x07) :
    decode w = .ok (.LoadDTIntoV x) := by
  simp [decode, h1, hx, hk]

theorem decode_at_loadkey (w x : Nat) (h1 : w / 4096 = 15)
    (hx : w / 256 % 16 = x) (hk : w % 256 = 0x0A) :
    decode w = .ok (.LoadKey x) := by
  simp [decode, h1, hx, hk]

theorem decode_at_loadvintodt (w x : Nat) (h1 : w / 4096 = 15)
    (hx : w / 256 % 16 = x) (hk : w % 256 = 0x15) :
    decode w = .ok (.LoadVIntoDT x) := by
  simp [decode, h1, hx, hk]

theorem decode_at_loadvintost (w x : Nat) (h1 : w / 4096 = 15)
    (hx : w / 256 % 16 = x) (hk : w % 256 = 0x18) :
    decode w = .ok (.LoadVIntoST x) := by
  simp [decode, h1, hx, hk]

theorem decode_at_addi (w x : Nat) (h1 : w / 4096 = 15)
    (hx : w / 256 % 16 = x) (hk : w % 256 = 0x1E) :
    decode w = .ok (.AddI x) := by
  simp [decode, h1, hx, hk]

theorem decode_at_loadspriteintoi (w x : Nat) (h1 : w / 4096 = 15)
    (hx : w / 256 % 16 = x) (hk : w % 256 = 0x29) :
    decode w = .ok (.LoadSpriteIntoI x) := by
  simp [decode, h1, hx, hk]

theorem decode_at_loadbcdintoi (w x : Nat) (h1 : w / 4096 = 15)
    (hx : w / 256 % 16 = x) (hk : w % 256 = 0x33) :
    decode w = .ok (.LoadBCDIntoI x) := by
  simp [decode, h1, hx, hk]

theorem decode_at_loadvintomem (w x : Nat) (h1 : w / 4096 = 15)
    (hx : w / 256 % 16 = x) (hk : w % 256 = 0x55) :
    decode w = .ok (.LoadVIntoMem x) := by
  simp [decode, h1, hx, hk]

theorem decode_at_loadmemintov (w x : Nat) (h1 : w / 4096 = 15)
    (hx : w / 256 % 16 = x) (hk : w % 256 = 0x65) :
    decode w = .ok (.LoadMemIntoV x) := by
  simp [decode, h1, hx, hk]

/-- C1: for every instruction whose payloads are in the ranges of the
data model, decoding the opcode produced by the opcode.rs encoder yields
the same instruction back (round-trip identity). -/
theorem c1_decode_encode_roundtrip (i : Instruction) (h : i.wf = true) :
    decode (OpCode.fromInstruction i) = .ok i := by
  cases i <;>
      simp only [Instruction.wf, Bool.and_eq_true, decide_eq_true_eq] at h <;>
      simp only [OpCode.fromInstruction, OpCode.oooo, OpCode.oook, OpCode.oxoo,
        OpCode.oxyo, OpCode.okkk, OpCode.oxkk, OpCode.oxyk]
  case ScrollDown k =>
    exact decode_at_scrolldown _ k (by omega) (by omega) (by omega)
  case ScrollRight => rfl
  case ScrollLeft => rfl
  case Exit => rfl
  case LowRes => rfl
  case HighRes => rfl
  case ClearScreen => rfl
  case Return => rfl
  case Jump a => exact decode_at_jump _ a (by omega) (by omega)
  case Call a => exact decode_at_call _ a (by omega) (by omega)
  case SkipEqualImmediate x kk =>
    exact decode_at_skipequalimmediate _ x kk (by omega) (by omega) (by omega)
  case SkipNotEqualImediate x kk =>
    exact decode_at_skipnotequalimediate _ x kk (by omega) (by omega) (by omega)
  case SkipEqual x y =>
    exact decode_at_skipequal _ x y (by omega) (by omega) (by omega) (by omega)
  case LoadImmediate x kk =>
    exact decode_at_loadimmediate _ x kk (by omega) (by omega) (by omega)
  case AddImmediate x kk =>
    exact decode_at_addimmediate _ x kk (by omega) (by omega) (by omega)
  case Load x y =>
    exact decode_at_load _ x y (by omega) (by omega) (by omega) (by omega)
  case Or x y =>
    exact decode_at_or _ x y (by omega) (by omega) (by omega) (by omega)
  case And x y =>
    exact decode_at_and _ x y (by omega) (by omega) (by omega) (by omega)
  case Xor x y =>
    exact decode_at_xor _ x y (by omega) (by omega) (by omega) (by omega)
  case Add x y =>
    exact decode_at_add _ x y (by omega) (by omega) (by omega) (by omega)
  case Sub x y =>
    exact decode_at_sub _ x y (by omega) (by omega) (by omega) (by omega)
  case ShiftRight x y =>
    exact decode_at_shiftright _ x y (by omega) (by omega) (by omega) (by omega)
  case SubNumeric x y =>
    exact decode_at_subnumeric _ x y (by omega) (by omega) (by omega) (by omega)
  case ShiftLeft x y =>
    exact decode_at_shiftleft _ x y (by omega) (by omega) (by omega) (by omega)
  case SkipNotEqual x y =>
    exact decode_at_skipnotequal _ x y (by omega) (by omega) (by omega) (by omega)
  case LoadI a => exact decode_at_loadi _ a (by omega) (by omega)
  case JumpImmediate a => exact decode_at_jumpimmediate _ a (by omega) (by omega)
  case Random x kk =>
    exact decode_at_random _ x kk (by omega) (by omega) (by omega)
  case Draw x y n =>
    exact decode_at_draw _ x y n (by omega) (by omega) (by omega) (by omega)
  case SkipOnKey x => exact decode_at_skiponkey _ x (by omega) (by omega) (by omega)
  case SkipNotOnKey x => exact decode_at_skipnotonkey _ x (by omega) (by omega) (by omega)
  case LoadDTIntoV x => exact decode_at_loaddtintov _ x (by omega) (by omega) (by omega)
  case LoadKey x => exact decode_at_loadkey _ x (by omega) (by omega) (by omega)
  case LoadVIntoDT x => exact decode_at_loadvintodt _ x (by omega) (by omega) (by omega)
  case LoadVIntoST x => exact decode_at_loadvintost _ x (by omega) (by omega) (by omega)
  case AddI x => exact decode_at_addi _ x (by omega) (by omega) (by omega)
  case LoadSpriteIntoI x =>
    exact decode_at_loadspriteintoi _ x (by omega) (by omega) (by omega)
  case LoadBCDIntoI x =>
    exact decode_at_loadbcdintoi _ x (by omega) (by omega) (by omega)
  case LoadVIntoMem x =>
    exact decode_at_loadvintomem _ x (by omega) (by omega) (by omega)
  case LoadMemIntoV x =>
    exact decode_at_loadmemintov _ x (by omega) (by omega) (by omega)

/-- C1 witness: the round trip instantiated at Jump 0xABC. -/
theorem c1_decode_encode_roundtrip_witness :
    decode (OpCode.fromInstruction (.Jump 0xABC)) = .ok (.Jump 0xABC) :=
  c1_decode_encode_roundtrip (.Jump 0xABC) (by decide)

set_option maxHeartbeats 1000000 in
/-- C3: for every 16-bit word, the modelled decoder either fails with an
error carrying exactly the offending word, or succeeds on a word inside
the supported table, namely a word that is the encoding of the decoded
instruction. The decoder is a total function, so no input aborts it, and
a word outside the table is never coerced to a default instruction. -/
theorem c3_decode_unsupported_errors (w : Nat) (hw : w < 65536) :
    decode w = .error w ∨
      ∃ i, decode w = .ok i ∧ OpCode.fromInstruction i = w := by
  have ho : w / 4096 = 0 ∨ w / 4096 = 1 ∨ w / 4096 = 2 ∨ w / 4096 = 3 ∨
      w / 4096 = 4 ∨ w / 4096 = 5 ∨ w / 4096 = 6 ∨ w / 4096 = 7 ∨
      w / 4096 = 8 ∨ w / 4096 = 9 ∨ w / 4096 = 10 ∨ w / 4096 = 11 ∨
      w / 4096 = 12 ∨ w / 4096 = 13 ∨ w / 4096 = 14 ∨ w / 4096 = 15 := by
    omega
  rcases ho with h | h | h | h | h | h | h | h | h | h | h | h | h | h | h | h
  · by_cases hA : 0xC0 ≤ w ∧ w ≤ 0xCF
    · exact Or.inr ⟨_, decode_at_scrolldown w (w % 16) hA.1 hA.2 rfl,
        by simp only [OpCode.fromInstruction, OpCode.oook]; omega⟩
    · by_cases hB : w = 0xFB
      · subst hB; exact Or.inr ⟨.ScrollRight, by rfl, by rfl⟩
      · by_cases hC : w = 0xFC
        · subst hC; exact Or.inr ⟨.ScrollLeft, by rfl, by rfl⟩
        · by_cases hD : w = 0xFD
          · subst hD; exact Or.inr ⟨.Exit, by rfl, by rfl⟩
          · by_cases hE : w = 0xFE
            · subst hE; exact Or.inr ⟨.LowRes, by rfl, by rfl⟩
            · by_cases hF : w = 0xFF
              · subst hF; exact Or.inr ⟨.HighRes, by rfl, by rfl⟩
              · by_cases hG : w = 0xE0
                · subst hG; exact Or.inr ⟨.ClearScreen, by rfl, by rfl⟩
                · by_cases hH : w = 0xEE
                  · subst hH; exact Or.inr ⟨.Return, by rfl, by rfl⟩
                  · exact Or.inl (by simp [decode, h, hA, hB, hC, hD, hE, hF, hG, hH])
  · exact Or.inr ⟨_, decode_at_jump w (w % 4096) h rfl,
      by simp only [OpCode.fromInstruction, OpCode.okkk]; omega⟩
  · exact Or.inr ⟨_, decode_at_call w (w % 4096) h rfl,
      by simp only [OpCode.fromInstruction, OpCode.okkk]; omega⟩
  · exact Or.inr ⟨_, decode_at_skipequalimmediate w (w / 256 % 16) (w % 256) h rfl rfl,
      by simp only [OpCode.fromInstruction, OpCode.oxkk]; omega⟩
  · exact Or.inr ⟨_, decode_at_skipnotequalimediate w (w / 256 % 16) (w % 256) h rfl rfl,
      by simp only [OpCode.fromInstruction, OpCode.oxkk]; omega⟩
  · by_cases hn : w % 16 = 0
    · exact Or.inr ⟨_, decode_at_skipequal w (w / 256 % 16) (w / 16 % 16) h rfl rfl hn,
        by simp only [OpCode.fromInstruction, OpCode.oxyo]; omega⟩
    · exact Or.inl (by simp [decode, h, hn])
  · exact Or.inr ⟨_, decode_at_loadimmediate w (w / 256 % 16) (w % 256) h rfl rfl,
      by simp only [OpCode.fromInstruction, OpCode.oxkk]; omega⟩
  · exact Or.inr ⟨_, decode_at_addimmediate w (w / 256 % 16) (w % 256) h rfl rfl,
      by simp only [OpCode.fromInstruction, OpCode.oxkk]; omega⟩
  · have hn : w % 16 = 0 ∨ w % 16 = 1 ∨ w % 16 = 2 ∨ w % 16 = 3 ∨ w % 16 = 4 ∨
        w % 16 = 5 ∨ w % 16 = 6 ∨ w % 16 = 7 ∨ w % 16 = 14 ∨
        (¬ w % 16 = 0 ∧ ¬ w % 16 = 1 ∧ ¬ w % 16 = 2 ∧ ¬ w % 16 = 3 ∧
         ¬ w % 16 = 4 ∧ ¬ w % 16 = 5 ∧ ¬ w % 16 = 6 ∧ ¬ w % 16 = 7 ∧
         ¬ w % 16 = 14) := by omega
    rcases hn with hn | hn | hn | hn | hn | hn | hn | hn | hn | hn
    · exact Or.inr ⟨_, decode_at_load w (w / 256 % 16) (w / 16 % 16) h rfl rfl hn,
        by simp only [OpCode.fromInstruction, OpCode.oxyo]; omega⟩
    · exact Or.inr ⟨_, decode_at_or w (w / 256 % 16) (w / 16 % 16) h rfl rfl hn,
        by simp only [OpCode.fromInstruction, OpCode.oxyo]; omega⟩
    · exact Or.inr ⟨_, decode_at_and w (w / 256 % 16) (w / 16 % 16) h rfl rfl hn,
        by simp only [OpCode.fromInstruction, OpCode.oxyo]; omega⟩
    · exact Or.inr ⟨_, decode_at_xor w (w / 256 % 16) (w / 16 % 16) h rfl rfl hn,
        by simp only [OpCode.fromInstruction, OpCode.oxyo]; omega⟩
    · exact Or.inr ⟨_, decode_at_add w (w / 256 % 16) (w / 16 % 16) h rfl rfl hn,
        by simp only [OpCode.fromInstruction, OpCode.oxyo]; omega⟩
    · exact Or.inr ⟨_, decode_at_sub w (w / 256 % 16) (w / 16 % 16) h rfl rfl hn,
        by simp only [OpCode.fromInstruction, OpCode.oxyo]; omega⟩
    · exact Or.inr ⟨_, decode_at_shiftright w (w / 256 % 16) (w / 16 % 16) h rfl rfl hn,
        by simp only [OpCode.fromInstruction, OpCode.oxyo]; omega⟩
    · exact Or.inr ⟨_, decode_at_subnumeric w (w / 256 % 16) (w / 16 % 16) h rfl rfl hn,
        by simp only [OpCode.fromInstruction, OpCode.oxyo]; omega⟩
    · exact Or.inr ⟨_, decode_at_shiftleft w (w / 256 % 16) (w / 16 % 16) h rfl rfl hn,
        by simp only [OpCode.fromInstruction, OpCode.oxyo]; omega⟩
    · exact Or.inl (by simp [decode, h, hn.1, hn.2.1, hn.2.2.1, hn.2.2.2.1,
        hn.2.2.2.2.1, hn.2.2.2.2.2.1, hn.2.2.2.2.2.2.1, hn.2.2.2.2.2.2.2.1,
        hn.2.2.2.2.2.2.2.2])
  · by_cases hn : w % 16 = 0
    · exact Or.inr ⟨_, decode_at_skipnotequal w (w / 256 % 16) (w / 16 % 16) h rfl rfl hn,
        by simp only [OpCode.fromInstruction, OpCode.oxyo]; omega⟩
    · exact Or.inl (by simp [decode, h, hn])
  · exact Or.inr ⟨_, decode_at_loadi w (w % 4096) h rfl,
      by simp only [OpCode.fromInstruction, OpCode.okkk]; omega⟩
  · exact Or.inr ⟨_, decode_at_jumpimmediate w (w % 4096) h rfl,
      by simp only [OpCode.fromInstruction, OpCode.okkk]; omega⟩
  · exact Or.inr ⟨_, decode_at_random w (w / 256 % 16) (w % 256) h rfl rfl,
      by simp only [OpCode.fromInstruction, OpCode.oxkk]; omega⟩
  · exact Or.inr ⟨_, decode_at_draw w (w / 256 % 16) (w / 16 % 16) (w % 16) h rfl rfl rfl,
      by simp only [OpCode.fromInstruction, OpCode.oxyk]; omega⟩
  · by_cases hk1 : w % 256 = 0x9E
    · exact Or.inr ⟨_, decode_at_skiponkey w (w / 256 % 16) h rfl hk1,
        by simp only [OpCode.fromInstruction, OpCode.oxoo]; omega⟩
    · by_cases hk2 : w % 256 = 0xA1
      · exact Or.inr ⟨_, decode_at_skipnotonkey w (w / 256 % 16) h rfl hk2,
          by simp only [OpCode.fromInstruction, OpCode.oxoo]; omega⟩
      · exact Or.inl (by simp [decode, h, hk1, hk2])
  · by_cases hk1 : w % 256 = 0x07
    · exact Or.inr ⟨_, decode_at_loaddtintov w (w / 256 % 16) h rfl hk1,
        by simp only [OpCode.fromInstruction, OpCode.oxoo]; omega⟩
    · by_cases hk2 : w % 256 = 0x0A
      · exact Or.inr ⟨_, decode_at_loadkey w (w / 256 % 16) h rfl hk2,
          by simp only [OpCode.fromInstruction, OpCode.oxoo]; omega⟩
      · by_cases hk3 : w % 256 = 0x15
        · exact Or.inr ⟨_, decode_at_loadvintodt w (w / 256 % 16) h rfl hk3,
            by simp only [OpCode.fromInstruction, OpCode.oxoo]; omega⟩
        · by_cases hk4 : w % 256 = 0x18
          · exact Or.inr ⟨_, decode_at_loadvintost w (w / 256 % 16) h rfl hk4,
              by simp only [OpCode.fromInstruction, OpCode.oxoo]; omega⟩
          · by_cases hk5 : w % 256 = 0x1E
            · exact Or.inr ⟨_, decode_at_addi w (w / 256 % 16) h rfl hk5,
                by simp only [OpCode.fromInstruction, OpCode.oxoo]; omega⟩
            · by_cases hk6 : w % 256 = 0x29
              · exact Or.inr ⟨_, decode_at_loadspriteintoi w (w / 256 % 16) h rfl hk6,
                  by simp only [OpCode.fromInstruction, OpCode.oxoo]; omega⟩
              · by_cases hk7 : w % 256 = 0x33
                · exact Or.inr ⟨_, decode_at_loadbcdintoi w (w / 256 % 16) h rfl hk7,
                    by simp only [OpCode.fromInstruction, OpCode.oxoo]; omega⟩
                · by_cases hk8 : w % 256 = 0x55
                  · exact Or.inr ⟨_, decode_at_loadvintomem w (w / 256 % 16) h rfl hk8,
                      by simp only [OpCode.fromInstruction, OpCode.oxoo]; omega⟩
                  · by_cases hk9 : w % 256 = 0x65
                    · exact Or.inr ⟨_, decode_at_loadmemintov w (w / 256 % 16) h rfl hk9,
                        by simp only [OpCode.fromInstruction, OpCode.oxoo]; omega⟩
                    · exact Or.inl
                        (by simp [decode, h, hk1, hk2, hk3, hk4, hk5, hk6, hk7, hk8, hk9])

/-- C3 witness: the decode contract instantiated at the unsupported word
0x5AB1 (the 5xy0 family with a nonzero low nibble). -/
theorem c3_decode_unsupported_errors_witness :
    decode 0x5AB1 = .error 0x5AB1 ∨
      ∃ i, decode 0x5AB1 = .ok i ∧ OpCode.fromInstruction i = 0x5AB1 :=
  c3_decode_unsupported_errors 0x5AB1 (by decide)

/-- C4 (code bug evidence): the register file declares v as [u8; 0xF],
so the default register file holds fifteen general registers, not
sixteen, and register index 15 is out of bounds; the doc comment at
src/src/register.rs lines 7-8 promises sixteen registers V0 through VF. -/
theorem c4_register_file_has_fifteen_registers :
    Register.default.v.length = 15 ∧ ¬ Register.default.v.length = 16 := by
  decide

/-- C5 (code bug evidence): the call stack is declared [u16; 0xF], so the
default register file holds fifteen stack slots, not sixteen; the doc
comment at src/src/register.rs line 35 promises sixteen levels of nested
subroutines. -/
theorem c5_call_stack_has_fifteen_entries :
    Register.default.stack.length = 15 ∧ ¬ Register.default.stack.length = 16 := by
  decide

/-- C6 counterexample: address 0 lies inside 0x000-0xFFF, yet reading it
from a fresh memory fails with OutOfBoundsAccess 0, refuting the claim
that every address in 0x000-0xFFF succeeds. -/
theorem c6_counterexample_low_address :
    Memory.get Memory.new 0 = .error (.OutOfBoundsAccess 0) := by
  rfl

/-- C6 amended: get and get_mut are bounds-checked against the range
0x200-0xFFF (check_idx accepts MEMORY_START..MEMORY_SIZE): an access
inside that range succeeds, and an access below 0x200 or at or above
0x1000 fails with OutOfBoundsAccess carrying the address. -/
theorem c6_access_checked_against_program_range (m : Memory) (idx v : Nat) :
    m.get idx = (if 0x200 ≤ idx ∧ idx < 0x1000 then .ok (m.memory.getD idx 0)
      else .error (.OutOfBoundsAccess idx)) ∧
    m.get_mut idx v = (if 0x200 ≤ idx ∧ idx < 0x1000 then .ok ⟨m.memory.set idx v⟩
      else .error (.OutOfBoundsAccess idx)) := by
  by_cases h : 0x200 ≤ idx ∧ idx < 0x1000 <;>
    simp [Memory.get, Memory.get_mut, Memory.check_idx, Memory.MEMORY_START,
      Memory.MEMORY_SIZE, h]

/-- C7 (code bug evidence): loading the two-byte program 0x12 0x34
through the io Write impl panics, because the destination slice
memory[0x200..2] has its start beyond its end, so no byte ever reaches
addresses 0x200 and 0x201 and no error value is returned. -/
theorem c7_load_two_bytes_panics :
    Memory.new.write [0x12, 0x34] = none ∧ Memory.fromBytes [0x12, 0x34] = none := by
  decide

/-- C10 (code bug evidence): the io Write impl panics for every input
buffer: the destination slice memory[MEMORY_START..data_length] either
has an invalid range (when data_length < MEMORY_START) or a length
data_length - MEMORY_START that differs from the buffer length, so the
copy_from_slice call can never succeed; the From impl for byte slices
inherits the panic. -/
theorem c10_write_always_panics (m : Memory) (buf : List Nat) :
    m.write buf = none ∧ Memory.fromBytes buf = none := by
  have hw : ∀ mm : Memory, mm.write buf = none := by
    intro mm
    unfold Memory.write Memory.MEMORY_SIZE Memory.MEMORY_START
    by_cases hb : buf.length < 0x1000 - 0x200 <;>
      simp only [hb, if_true, if_false, ite_true, ite_false] <;>
      rw [if_neg (by omega)]
  exact ⟨hw m, by simp [Memory.fromBytes, hw Memory.new]⟩

/-- C8: executing the modelled Add instruction on any register file whose
destination register holds a and source register holds b stores
(a + b) mod 256 into the destination and sets the flag register to 1
when a + b exceeds 255 and to 0 otherwise. -/
theorem c8_add_overflow_law (rf : Register) (x y a b : Nat)
    (hx : x < 15) (hxf : ¬ x = 0xE) (hlen : rf.v.length = 15)
    (ha : rf.v.getD x 0 = a) (hb : rf.v.getD y 0 = b) :
    (rf.execAdd x y).v.getD x 0 = (a + b) % 256 ∧
    (rf.execAdd x y).v.getD 0xE 0 = (if 255 < a + b then 1 else 0) := by
  simp only [Register.execAdd, ha, hb]
  constructor
  · rw [List.getD_eq_getElem?_getD, List.getElem?_set_ne (by omega),
      List.getElem?_set_self (by simp [hlen, hx])]
    rfl
  · rw [List.getD_eq_getElem?_getD, List.getElem?_set_self (by simp [hlen])]
    rfl

/-- C8 witness: the addition law instantiated on a register file holding
250 in V0 and 20 in V1; the destination receives 14 and the flag 1. -/
theorem c8_add_overflow_law_witness :
    (({ v := [250, 20, 0, 0, 0, 0, 0, 0, 0, 0, 0, 0, 0, 0, 0], i := 0, dt := 0,
        st := 0, pc := 0, sp := 0, stack := List.replicate 0xF 0 } :
        Register).execAdd 0 1).v.getD 0 0 = (250 + 20) % 256 ∧
    (({ v := [250, 20, 0, 0, 0, 0, 0, 0, 0, 0, 0, 0, 0, 0, 0], i := 0, dt := 0,
        st := 0, pc := 0, sp := 0, stack := List.replicate 0xF 0 } :
        Register).execAdd 0 1).v.getD 0xE 0 = (if 255 < 250 + 20 then 1 else 0) :=
  c8_add_overflow_law _ 0 1 250 20 (by decide) (by decide) (by decide)
    (by decide) (by decide)

end Chirp
